import Mathlib

/-!
Verification development for the PriceCanary telemetry-guardrail service.

The definitions below are a shallow embedding of the Python sources:

* `src/data/contracts.py`   — `TelemetryRecord` (Pydantic model with price
  normalization and funnel validators) and `DataContractValidator`;
* `src/models/kalman.py`    — `ConversionKalmanFilter`;
* `src/models/drift.py`     — `DriftDetector` (PSI, two-window state,
  per-SKU conversion history);
* `src/models/anomaly.py`   — the stateful history kept by `AnomalyDetector`;
* `src/api/alerts.py`       — `AlertManager` (ids, TTL eviction, listing, stats);
* `src/api/routes.py`       — the detector-state evolution of `ingest_telemetry`.

Conventions: Python floats are modelled as `ℚ` where the source only does
field arithmetic and comparisons, and as `ℝ` where `np.sqrt` / `np.log`
occur (Kalman filter, PSI).  Timestamps are rational epoch seconds and
`datetime.now()` is an explicit `now` argument.  Python dicts keyed by SKU
are total functions with the defaultdict default.  String payloads that no
theorem inspects (violation reason texts, alert messages) are either kept
verbatim or elided; this is noted at each definition.  External library
calls that are not code of this repository (`scipy.stats.ks_2samp`,
the fitted `IsolationForest`) enter as explicit function parameters.
-/

namespace PriceCanary

/-! ## Data contracts (`src/data/contracts.py`) -/

/-- `ViolationType` enum, contracts.py lines 13-21. -/
inductive ViolationType where
  | schema_error
  | negative_stock
  | price_jump
  | unit_error
  | invalid_timestamp
  | missing_required
  | out_of_bounds
deriving DecidableEq, Repr

/-- Severity strings used by the validator and `AlertSeverity` (alerts.py lines 9-14). -/
inductive Severity where
  | low
  | medium
  | high
  | critical
deriving DecidableEq, Repr

/-- A raw ingest record: the fields of `TelemetryRecordRequest`
(api/models.py lines 8-17), i.e. the dict handed to `validate_record` and to
the detectors by `ingest_telemetry`.  The request model performs no funnel
or positivity validation, so all integer fields are `ℤ`. -/
structure TelemetryInput where
  timestamp : ℚ
  sku : String
  price : ℚ
  stock : ℤ
  views : ℤ
  add_to_cart : ℤ
  purchases : ℤ
  referrer : Option String
deriving DecidableEq, Repr

/-- `TelemetryRecord.normalize_price` (contracts.py lines 35-42): a raw price
above 1000 is interpreted as cents and divided by 100. -/
def normalize_price (v : ℚ) : ℚ :=
  if 1000 < v then v / 100 else v

/-- A record that passed the Pydantic `TelemetryRecord` model: the stored
price is the normalized one. -/
structure TelemetryRecord where
  timestamp : ℚ
  sku : String
  price : ℚ
  stock : ℤ
  views : ℤ
  add_to_cart : ℤ
  purchases : ℤ
  referrer : Option String
deriving DecidableEq, Repr

/-- The Pydantic validation step of `TelemetryRecord` (contracts.py lines
24-56): field constraints `sku` nonempty, `price > 0` (after the `pre=True`
normalizer), `stock ≥ 0`, `views ≥ 0`, `add_to_cart ≥ 0`, plus the two
funnel validators `add_to_cart ≤ views` and `purchases ≤ add_to_cart`.
`none` models the exception caught at contracts.py line 167. -/
def pydanticValidate (r : TelemetryInput) : Option TelemetryRecord :=
  let p := normalize_price r.price
  if 1 ≤ r.sku.length ∧ 0 < p ∧ 0 ≤ r.stock ∧ 0 ≤ r.views ∧ 0 ≤ r.add_to_cart ∧
      r.add_to_cart ≤ r.views ∧ 0 ≤ r.purchases ∧ r.purchases ≤ r.add_to_cart then
    some ⟨r.timestamp, r.sku, p, r.stock, r.views, r.add_to_cart, r.purchases, r.referrer⟩
  else
    none

/-- One violation entry as appended by `ValidationResult.add_violation`
(contracts.py lines 76-91).  The free-text `reason` and the wall-clock
violation timestamp are elided: no claim inspects them. -/
structure Violation where
  sku : Option String
  violation_type : ViolationType
  severity : Severity
deriving DecidableEq, Repr

/-- `ValidationResult` (contracts.py lines 64-91): `is_valid` is true iff no
violation was added. -/
structure ValidationResult where
  is_valid : Bool
  violations : List Violation
deriving DecidableEq, Repr

/-- `DataContractValidator` state (contracts.py lines 139-149): thresholds
plus the per-SKU price history dict (default `[]`). -/
structure ValidatorState where
  price_jump_threshold : ℚ
  max_price : ℚ
  price_history : String → List ℚ

/-- Fresh validator, `DataContractValidator.__init__`. -/
def ValidatorState.init (jt mp : ℚ) : ValidatorState :=
  ⟨jt, mp, fun _ => []⟩

/-- `DataContractValidator.validate_record` (contracts.py lines 151-251),
with `datetime.now()` passed as `now`.  On a Pydantic failure one
`schema_error`/high violation is recorded and the method returns without
touching the price history.  Otherwise, in source order: negative-stock
check, unit-error check against `max_price` (on the normalized price),
price-jump check against the last retained price, price-history append with
trim to the last 100, and the two timestamp-freshness checks. -/
def validate_record (vs : ValidatorState) (now : ℚ) (r : TelemetryInput) :
    ValidationResult × ValidatorState :=
  match pydanticValidate r with
  | none => ({ is_valid := false, violations := [⟨some r.sku, .schema_error, .high⟩] }, vs)
  | some t =>
    let sku := t.sku
    let price := t.price
    let negV : List Violation :=
      if t.stock < 0 then [⟨some sku, .negative_stock, .high⟩] else []
    let unitV : List Violation :=
      if vs.max_price < price then [⟨some sku, .unit_error, .critical⟩] else []
    let hist := vs.price_history sku
    let jumpV : List Violation :=
      match hist.getLast? with
      | none => []
      | some last_price =>
        if 0 < last_price then
          let ratio := price / last_price
          if vs.price_jump_threshold < ratio then [⟨some sku, .price_jump, .critical⟩]
          else if ratio < 1 / vs.price_jump_threshold then [⟨some sku, .price_jump, .high⟩]
          else []
        else []
    let hist1 := hist ++ [price]
    let hist2 := if 100 < hist1.length then hist1.drop (hist1.length - 100) else hist1
    let vs' : ValidatorState :=
      { vs with price_history := fun s => if s = sku then hist2 else vs.price_history s }
    let time_diff := now - t.timestamp
    let tsV : List Violation :=
      if 86400 < time_diff then [⟨some sku, .invalid_timestamp, .medium⟩]
      else if time_diff < -3600 then [⟨some sku, .invalid_timestamp, .medium⟩]
      else []
    let viols := negV ++ unitV ++ jumpV ++ tsV
    ({ is_valid := viols.isEmpty, violations := viols }, vs')

/-! ### Concrete validator scenarios (claims C2 and C3) -/

/-- First record of the price-jump scenario: price 19.99 (test_contracts.py
`test_price_jump`, spec §8 boundary scenario 1).  Timestamp equals `now = 0`. -/
def jumpRecord1 : TelemetryInput :=
  ⟨0, "SKU-001", 1999/100, 100, 50, 10, 5, some "organic"⟩

/-- Second record of the price-jump scenario: price 1999.99 for the same SKU. -/
def jumpRecord2 : TelemetryInput :=
  ⟨0, "SKU-001", 199999/100, 100, 50, 10, 5, some "organic"⟩

/-- Claim C2 (code_bug evidence): with `price_jump_threshold = 10` and empty
history, validating price 19.99 and then price 1999.99 for the same SKU
yields a *valid* second record with *no* violations: the Pydantic
normalizer rewrites 1999.99 to 19.9999, so the jump ratio is ≈ 1.0005 and
the `price_jump` branch never fires — contradicting the spec scenario and
the repository's own `test_price_jump`, which assert one critical
`price_jump` violation. -/
theorem c2_price_jump_masked :
    (validate_record (ValidatorState.init 10 100000) 0 jumpRecord1).1 =
      ⟨true, []⟩ ∧
    (validate_record ((validate_record (ValidatorState.init 10 100000) 0 jumpRecord1).2)
        0 jumpRecord2).1 = ⟨true, []⟩ := by
  norm_num [validate_record, pydanticValidate, normalize_price, jumpRecord1, jumpRecord2,
    ValidatorState.init, show 1 ≤ "SKU-001".length from by decide]

/-- The unit-error scenario record: raw price 50000 (test_contracts.py
`test_unit_error_detection`, spec §8 boundary scenario 3). -/
def unitErrorRecord : TelemetryInput :=
  ⟨0, "SKU-001", 50000, 100, 50, 10, 5, some "organic"⟩

/-- Claim C3 (code_bug evidence): under `max_price = 1000`, a raw price of
50000 is first normalized to 500 (cents heuristic), so the
`price > max_price` unit-error check at contracts.py lines 189-195 compares
500 against 1000 and produces *no* violation — contradicting the spec
scenario and the repository's own `test_unit_error_detection`, which assert
a critical `unit_error` violation. -/
theorem c3_unit_error_masked :
    (validate_record (ValidatorState.init 10 1000) 0 unitErrorRecord).1 =
      ⟨true, []⟩ := by
  norm_num [validate_record, pydanticValidate, normalize_price, unitErrorRecord,
    ValidatorState.init, show 1 ≤ "SKU-001".length from by decide]

/-! ## Conversion Kalman filter (`src/models/kalman.py`) -/

/-- `ConversionKalmanFilter` state (kalman.py lines 11-34): the two noise
parameters and the per-SKU `{estimate, uncertainty}` defaultdict, modelled
as total functions. -/
structure KalmanState where
  process_variance : ℝ
  measurement_variance : ℝ
  estimate : String → ℝ
  uncertainty : String → ℝ

/-- Filter with the default constructor arguments
`process_variance=0.01`, `measurement_variance=0.05`,
`initial_estimate=0.05`, `initial_uncertainty=1.0`. -/
noncomputable def kalmanInit : KalmanState :=
  ⟨1/100, 1/20, fun _ => 1/20, fun _ => 1⟩

/-- `ConversionKalmanFilter.update` (kalman.py lines 36-89).  Returns the
pair the Python method returns together with the mutated filter state.
`np.clip(x, 0.0, 1.0)` is `min 1 (max 0 x)`; `np.sqrt(views)` is
`Real.sqrt`.  The inner `if views > 0` mirrors kalman.py line 67 (its else
branch is reachable only for negative `views`). -/
noncomputable def kalmanUpdate (ks : KalmanState) (sku : String) (views purchases : ℤ) :
    ℝ × ℝ × KalmanState :=
  let current_estimate := ks.estimate sku
  let current_uncertainty := ks.uncertainty sku
  if views = 0 then
    (current_estimate, current_uncertainty, ks)
  else
    let observed_conversion : ℝ := (purchases : ℝ) / (views : ℝ)
    let predicted_estimate := current_estimate
    let predicted_uncertainty := current_uncertainty + ks.process_variance
    let effective_measurement_variance :=
      if 0 < views then ks.measurement_variance / Real.sqrt (views : ℝ)
      else ks.measurement_variance
    let kalman_gain := predicted_uncertainty / (predicted_uncertainty + effective_measurement_variance)
    let updated_estimate :=
      predicted_estimate + kalman_gain * (observed_conversion - predicted_estimate)
    let updated_uncertainty := (1 - kalman_gain) * predicted_uncertainty
    let clipped := min 1 (max 0 updated_estimate)
    (clipped, updated_uncertainty,
      { ks with
        estimate := fun s => if s = sku then clipped else ks.estimate s,
        uncertainty := fun s => if s = sku then updated_uncertainty else ks.uncertainty s })

/-- The dictionary returned by `detect_deviation` (kalman.py lines 104-154).
In the `views == 0` early return only `deviation_detected` and `reason` are
present in the Python dict; the remaining fields are zero-filled here. -/
structure DeviationResult where
  deviation_detected : Prop
  expected_conversion : ℝ
  observed_conversion : ℝ
  updated_conversion : ℝ
  z_score : ℝ
  threshold_sigma : ℝ
  uncertainty : ℝ
  updated_uncertainty : ℝ
  deviation_pct : ℝ
  reason : Option String

/-- `ConversionKalmanFilter.detect_deviation` (kalman.py lines 104-154).
Note line 134: `std_dev = np.sqrt(uncertainty) if uncertainty > 0 else 0.1`
— the value 0.1 is a fallback for non-positive uncertainty, not a floor on
the standard deviation.  The method then updates the filter (line 140);
the mutated state is the second component. -/
noncomputable def detectDeviation (ks : KalmanState) (sku : String) (views purchases : ℤ)
    (threshold_sigma : ℝ) : DeviationResult × KalmanState :=
  if views = 0 then
    ({ deviation_detected := False, expected_conversion := 0, observed_conversion := 0,
       updated_conversion := 0, z_score := 0, threshold_sigma := threshold_sigma,
       uncertainty := 0, updated_uncertainty := 0, deviation_pct := 0,
       reason := some "No views" }, ks)
  else
    let estimate := ks.estimate sku
    let uncertainty := ks.uncertainty sku
    let observed_conversion : ℝ := (purchases : ℝ) / (views : ℝ)
    let std_dev := if 0 < uncertainty then Real.sqrt uncertainty else 1/10
    let z_score := if 0 < std_dev then |observed_conversion - estimate| / std_dev else 0
    let upd := kalmanUpdate ks sku views purchases
    ({ deviation_detected := threshold_sigma < z_score,
       expected_conversion := estimate,
       observed_conversion := observed_conversion,
       updated_conversion := upd.1,
       z_score := z_score,
       threshold_sigma := threshold_sigma,
       uncertainty := uncertainty,
       updated_uncertainty := upd.2.1,
       deviation_pct := if 0 < estimate then (observed_conversion - estimate) / estimate * 100 else 0,
       reason := none }, upd.2.2)

/-- `ConversionKalmanFilter.reset_sku` (kalman.py lines 171-183). -/
noncomputable def resetSku (ks : KalmanState) (sku : String)
    (initial_estimate initial_uncertainty : ℝ) : KalmanState :=
  { ks with
    estimate := fun s => if s = sku then initial_estimate else ks.estimate s,
    uncertainty := fun s => if s = sku then initial_uncertainty else ks.uncertainty s }

/-- Invariant carried through every Kalman update: non-negative noise
parameters, estimates in `[0, 1]`, non-negative uncertainties. -/
def KalmanInv (ks : KalmanState) : Prop :=
  0 ≤ ks.process_variance ∧ 0 ≤ ks.measurement_variance ∧
    ∀ s, 0 ≤ ks.estimate s ∧ ks.estimate s ≤ 1 ∧ 0 ≤ ks.uncertainty s

theorem kalmanInit_inv : KalmanInv kalmanInit := by
  refine ⟨by norm_num [kalmanInit], by norm_num [kalmanInit], fun s => ?_⟩
  norm_num [kalmanInit]

theorem clip01_bounds (x : ℝ) : 0 ≤ min 1 (max 0 x) ∧ min 1 (max 0 x) ≤ 1 :=
  ⟨le_min zero_le_one (le_max_left 0 x), min_le_left 1 _⟩

theorem gain_complement_mul_nonneg (PU R : ℝ) (hPU : 0 ≤ PU) (hR : 0 ≤ R) :
    0 ≤ (1 - PU / (PU + R)) * PU := by
  have hK : PU / (PU + R) ≤ 1 := by
    rcases eq_or_lt_of_le (add_nonneg hPU hR) with hz | hpos
    · rw [← hz, div_zero]
      exact zero_le_one
    · exact div_le_one_of_le₀ (le_add_of_nonneg_right hR) (le_of_lt hpos)
  exact mul_nonneg (sub_nonneg.mpr hK) hPU

theorem kalmanUpdate_inv (ks : KalmanState) (sku : String) (views purchases : ℤ)
    (h : KalmanInv ks) : KalmanInv (kalmanUpdate ks sku views purchases).2.2 := by
  obtain ⟨hpv, hmv, hs⟩ := h
  by_cases hv : views = 0
  · simp only [kalmanUpdate, if_pos hv]
    exact ⟨hpv, hmv, hs⟩
  · have hR : 0 ≤ (if 0 < views then ks.measurement_variance / Real.sqrt (views : ℝ)
        else ks.measurement_variance) := by
      split
      · exact div_nonneg hmv (Real.sqrt_nonneg _)
      · exact hmv
    have hPU : 0 ≤ ks.uncertainty sku + ks.process_variance :=
      add_nonneg (hs sku).2.2 hpv
    refine ⟨?_, ?_, fun s => ?_⟩ <;> simp only [kalmanUpdate, if_neg hv]
    · exact hpv
    · exact hmv
    · by_cases hss : s = sku
      · subst hss
        simp only [if_pos rfl]
        exact ⟨(clip01_bounds _).1, (clip01_bounds _).2,
          gain_complement_mul_nonneg _ _ hPU hR⟩
      · simp only [if_neg hss]
        exact hs s

/-- Any sequence of `update` calls with natural-number views and purchases,
applied to the default filter, exactly as `update` is reached from ingest. -/
noncomputable def kalmanRun (steps : List (String × ℕ × ℕ)) : KalmanState :=
  steps.foldl (fun ks st => (kalmanUpdate ks st.1 (st.2.1 : ℤ) (st.2.2 : ℤ)).2.2) kalmanInit

/-- Claim C5: starting from the default per-SKU state (estimate 0.05,
uncertainty 1.0), after any sequence of `update` calls with arbitrary
non-negative views and purchases, every SKU's stored estimate lies in
`[0, 1]` and its stored uncertainty is non-negative. -/
theorem c5_kalman_state_bounds (steps : List (String × ℕ × ℕ)) (sku : String) :
    0 ≤ (kalmanRun steps).estimate sku ∧ (kalmanRun steps).estimate sku ≤ 1 ∧
      0 ≤ (kalmanRun steps).uncertainty sku := by
  have key : ∀ (l : List (String × ℕ × ℕ)) (ks : KalmanState), KalmanInv ks →
      KalmanInv (l.foldl (fun ks st => (kalmanUpdate ks st.1 (st.2.1 : ℤ) (st.2.2 : ℤ)).2.2) ks) := by
    intro l
    induction l with
    | nil => intro ks h; exact h
    | cons hd tl ih =>
      intro ks h
      exact ih _ (kalmanUpdate_inv ks hd.1 (hd.2.1 : ℤ) (hd.2.2 : ℤ) h)
  have h := key steps kalmanInit kalmanInit_inv
  exact h.2.2 sku

/-- Claim C4 (amended): for `views ≠ 0` and a strictly positive stored
uncertainty `P`, the z-score returned by `detect_deviation` is
`|observed − estimate| / √P` with no lower floor on the denominator; the
0.1 divisor of kalman.py line 134 is used only when `P ≤ 0`. -/
theorem c4_zscore_formula (ks : KalmanState) (sku : String) (views purchases : ℤ)
    (threshold_sigma : ℝ) (hv : views ≠ 0) (hu : 0 < ks.uncertainty sku) :
    (detectDeviation ks sku views purchases threshold_sigma).1.z_score =
      |(purchases : ℝ) / (views : ℝ) - ks.estimate sku| / Real.sqrt (ks.uncertainty sku) := by
  have hstd : (0:ℝ) < Real.sqrt (ks.uncertainty sku) := Real.sqrt_pos.mpr hu
  simp only [detectDeviation, if_neg hv, if_pos hu, if_pos hstd]

/-- Witness for `c4_zscore_formula` at the default filter state with a
single view and purchase. -/
theorem c4_zscore_formula_witness :
    (detectDeviation kalmanInit "SKU-001" 1 1 2).1.z_score =
      |((1:ℤ) : ℝ) / ((1:ℤ) : ℝ) - kalmanInit.estimate "SKU-001"| /
        Real.sqrt (kalmanInit.uncertainty "SKU-001") :=
  c4_zscore_formula kalmanInit "SKU-001" 1 1 2 (by decide) zero_lt_one

/-- A filter state reachable through `reset_sku`: estimate 0.05 and
uncertainty 10⁻⁴, whose standard deviation 0.01 is below the alleged 0.1
floor. -/
noncomputable def lowUncState : KalmanState :=
  resetSku kalmanInit "SKU-001" (1/20) (1/10000)

/-- Claim C4 (counterexample): at uncertainty 10⁻⁴ the z-score computed by
`detect_deviation` (= 95, divisor √P = 0.01) differs from the claimed
`|observed − estimate| / max(√P, 0.1)` (= 9.5): the code applies no 0.1
floor to the standard deviation when the uncertainty is positive. -/
theorem c4_no_floor_counterexample :
    (detectDeviation lowUncState "SKU-001" 1 1 2).1.z_score ≠
      |(detectDeviation lowUncState "SKU-001" 1 1 2).1.observed_conversion -
          (detectDeviation lowUncState "SKU-001" 1 1 2).1.expected_conversion| /
        max (Real.sqrt ((detectDeviation lowUncState "SKU-001" 1 1 2).1.uncertainty)) (1/10) := by
  have hunc : lowUncState.uncertainty "SKU-001" = 1/10000 := by
    simp [lowUncState, resetSku]
  have hest : lowUncState.estimate "SKU-001" = 1/20 := by
    simp [lowUncState, resetSku]
  have hsq : Real.sqrt (1/10000 : ℝ) = 1/100 := by
    rw [show (1/10000 : ℝ) = (1/100)^2 by norm_num, Real.sqrt_sq (by norm_num)]
  have habs : |((1:ℤ) : ℝ) / ((1:ℤ) : ℝ) - (1/20 : ℝ)| = 19/20 := by
    rw [show ((1:ℤ) : ℝ) / ((1:ℤ) : ℝ) - (1/20 : ℝ) = 19/20 by norm_num]
    exact abs_of_pos (by norm_num)
  have hupos : (0:ℝ) < lowUncState.uncertainty "SKU-001" := by
    rw [hunc]; norm_num
  have hz : (detectDeviation lowUncState "SKU-001" 1 1 2).1.z_score = 95 := by
    simp only [detectDeviation, if_neg (by decide : ¬ (1:ℤ) = 0), if_pos hupos,
      if_pos (Real.sqrt_pos.mpr hupos)]
    rw [hunc, hest, hsq, habs]
    norm_num
  have hobs : (detectDeviation lowUncState "SKU-001" 1 1 2).1.observed_conversion =
      ((1:ℤ) : ℝ) / ((1:ℤ) : ℝ) := by
    simp only [detectDeviation, if_neg (by decide : ¬ (1:ℤ) = 0)]
  have hexp : (detectDeviation lowUncState "SKU-001" 1 1 2).1.expected_conversion =
      lowUncState.estimate "SKU-001" := by
    simp only [detectDeviation, if_neg (by decide : ¬ (1:ℤ) = 0)]
  have huncr : (detectDeviation lowUncState "SKU-001" 1 1 2).1.uncertainty =
      lowUncState.uncertainty "SKU-001" := by
    simp only [detectDeviation, if_neg (by decide : ¬ (1:ℤ) = 0)]
  rw [hz, hobs, hexp, huncr, hunc, hest, hsq, habs]
  rw [show max (1/100 : ℝ) (1/10) = 1/10 from max_eq_right (by norm_num)]
  norm_num

/-! ## Drift detector (`src/models/drift.py`) -/

/-- `DriftDetector` state (drift.py lines 13-40): thresholds, the baseline
and recent windows for the two tracked metrics (`baseline_data["price"]`,
`baseline_data["stock"]`, `recent_data[...]`), the `baseline_ready` flag,
and the per-SKU conversion history defaultdict.  The (unused) timestamp
component mentioned in the comment at drift.py line 40 is not stored by
the code (line 130 appends only the rate) and is not modelled. -/
structure DriftState where
  psi_threshold : ℚ
  ks_threshold : ℚ
  baseline_window : ℕ
  baseline_price : List ℚ
  baseline_stock : List ℚ
  baseline_ready : Bool
  recent_price : List ℚ
  recent_stock : List ℚ
  sku_conversion_history : String → List ℚ

/-- `DriftDetector.add_to_baseline` (drift.py lines 106-134): early return
when the baseline is frozen; otherwise append price and stock (always
present on a `TelemetryInput`), record `purchases/views` for a non-empty
SKU when `views > 0`, then freeze the baseline once it holds
`baseline_window` prices. -/
def add_to_baseline (st : DriftState) (r : TelemetryInput) : DriftState :=
  if st.baseline_ready then st
  else
    let st1 := { st with
      baseline_price := st.baseline_price ++ [r.price],
      baseline_stock := st.baseline_stock ++ [(r.stock : ℚ)] }
    let st2 :=
      if r.sku ≠ "" ∧ 0 < r.views then
        { st1 with sku_conversion_history := fun s =>
            if s = r.sku then st1.sku_conversion_history s ++ [(r.purchases : ℚ) / (r.views : ℚ)]
            else st1.sku_conversion_history s }
      else st1
    if st.baseline_window ≤ st2.baseline_price.length then
      { st2 with baseline_ready := true }
    else st2

/-- `DriftDetector.add_to_recent` (drift.py lines 136-157): append price
and stock to the recent windows, then trim each to the last
`baseline_window // 2` entries. -/
def add_to_recent (st : DriftState) (r : TelemetryInput) : DriftState :=
  let st1 := { st with
    recent_price := st.recent_price ++ [r.price],
    recent_stock := st.recent_stock ++ [(r.stock : ℚ)] }
  let max_recent := st.baseline_window / 2
  let rp := if max_recent < st1.recent_price.length then
      st1.recent_price.drop (st1.recent_price.length - max_recent) else st1.recent_price
  let rs := if max_recent < st1.recent_stock.length then
      st1.recent_stock.drop (st1.recent_stock.length - max_recent) else st1.recent_stock
  { st1 with recent_price := rp, recent_stock := rs }

/-- The drift-window update performed on every ingest (routes.py line 86):
`add_to_baseline` while the baseline is still collecting, `add_to_recent`
afterwards. -/
def driftIngestStep (st : DriftState) (r : TelemetryInput) : DriftState :=
  if st.baseline_ready then add_to_recent st r else add_to_baseline st r

/-- `np.min` over a sample (guarded non-empty at every call site). -/
def listMin : List ℚ → ℚ
  | [] => 0
  | x :: xs => xs.foldl min x

/-- `np.max` over a sample. -/
def listMax : List ℚ → ℚ
  | [] => 0
  | x :: xs => xs.foldl max x

/-- Bin index of `x` under `np.histogram` with `bins + 1` equal-width edges
over `[min_val, max_val]`: `⌊bins·(x − min_val)/(max_val − min_val)⌋`,
with the right edge folded into the last bin. -/
def binIndex (min_val max_val : ℚ) (bins : ℕ) (x : ℚ) : ℕ :=
  min (Int.floor ((bins : ℚ) * (x - min_val) / (max_val - min_val))).toNat (bins - 1)

/-- Histogram counts per bin (drift.py lines 70-74). -/
def histCounts (min_val max_val : ℚ) (bins : ℕ) (xs : List ℚ) : List ℕ :=
  (List.range bins).map (fun i => (xs.filter (fun x => binIndex min_val max_val bins x = i)).length)

/-- Counts normalized to proportions with the `1e-10` floor of drift.py
lines 77-82. -/
def floorProbs (counts : List ℕ) (n : ℕ) : List ℚ :=
  counts.map (fun (c : ℕ) => let p : ℚ := (c : ℚ) / (n : ℚ); if p = 0 then 1/10^10 else p)

/-- `Σ (aᵢ − eᵢ)·ln(aᵢ/eᵢ)` over paired actual/expected proportions
(drift.py line 85); `np.log` is `Real.log`. -/
noncomputable def psiSum (pairs : List (ℚ × ℚ)) : ℝ :=
  pairs.foldl (fun acc p => acc + ((p.1 - p.2 : ℚ) : ℝ) * Real.log ((p.1 : ℝ) / (p.2 : ℝ))) 0

/-- `DriftDetector.calculate_psi` (drift.py lines 42-87): 0 for an empty
sample or a degenerate common range, otherwise the PSI sum over the
floored bin proportions. -/
noncomputable def calculate_psi (expected actual : List ℚ) (bins : ℕ) : ℝ :=
  if expected.length = 0 ∨ actual.length = 0 then 0
  else
    let min_val := min (listMin expected) (listMin actual)
    let max_val := max (listMax expected) (listMax actual)
    if min_val = max_val then 0
    else
      let expected_pct := floorProbs (histCounts min_val max_val bins expected) expected.length
      let actual_pct := floorProbs (histCounts min_val max_val bins actual) actual.length
      psiSum (actual_pct.zip expected_pct)

theorem psiSum_self (l : List ℚ) : psiSum (l.zip l) = 0 := by
  suffices key : ∀ (l : List ℚ) (acc : ℝ),
      (l.zip l).foldl (fun acc p => acc + ((p.1 - p.2 : ℚ) : ℝ) * Real.log ((p.1 : ℝ) / (p.2 : ℝ))) acc = acc by
    simpa [psiSum] using key l 0
  intro l
  induction l with
  | nil => intro acc; rfl
  | cons x xs ih =>
    intro acc
    simp only [List.zip_cons_cons, List.foldl_cons, sub_self, Rat.cast_zero, zero_mul, add_zero]
    exact ih acc

theorem psiTerm_nonneg (a e : ℚ) (ha : 0 < a) (he : 0 < e) :
    0 ≤ ((a - e : ℚ) : ℝ) * Real.log ((a : ℝ) / (e : ℝ)) := by
  rcases le_total e a with h | h
  · refine mul_nonneg (by exact_mod_cast sub_nonneg.mpr h) (Real.log_nonneg ?_)
    rw [le_div_iff₀ (by exact_mod_cast he)]
    simpa using (by exact_mod_cast h : (e : ℝ) ≤ (a : ℝ))
  · refine mul_nonneg_iff.mpr (Or.inr ⟨by exact_mod_cast sub_nonpos.mpr h, ?_⟩)
    refine Real.log_nonpos (by positivity) ?_
    rw [div_le_one (by exact_mod_cast he)]
    exact_mod_cast h

theorem psiSum_nonneg (pairs : List (ℚ × ℚ)) (h : ∀ p ∈ pairs, 0 < p.1 ∧ 0 < p.2) :
    0 ≤ psiSum pairs := by
  suffices key : ∀ (l : List (ℚ × ℚ)) (acc : ℝ), (∀ p ∈ l, 0 < p.1 ∧ 0 < p.2) →
      acc ≤ l.foldl (fun acc p => acc + ((p.1 - p.2 : ℚ) : ℝ) * Real.log ((p.1 : ℝ) / (p.2 : ℝ))) acc by
    simpa [psiSum] using key pairs 0 h
  intro l
  induction l with
  | nil => intro acc _; simp
  | cons hd tl ih =>
    intro acc hh
    have hterm := psiTerm_nonneg hd.1 hd.2 (hh hd (List.mem_cons_self hd tl)).1
      (hh hd (List.mem_cons_self hd tl)).2
    calc acc ≤ acc + ((hd.1 - hd.2 : ℚ) : ℝ) * Real.log ((hd.1 : ℝ) / (hd.2 : ℝ)) :=
          le_add_of_nonneg_right hterm
    _ ≤ _ := by
          rw [List.foldl_cons]
          exact ih _ (fun p hp => hh p (List.mem_cons_of_mem hd hp))

theorem floorProbs_pos (counts : List ℕ) (n : ℕ) (x : ℚ) (hx : x ∈ floorProbs counts n) :
    0 < x := by
  unfold floorProbs at hx
  obtain ⟨c, _, rfl⟩ := List.mem_map.mp hx
  show 0 < if ((c : ℚ) / (n : ℚ)) = 0 then 1/10^10 else (c : ℚ) / (n : ℚ)
  split
  · norm_num
  · rename_i hne
    exact lt_of_le_of_ne (div_nonneg (Nat.cast_nonneg c) (Nat.cast_nonneg n)) (Ne.symm hne)

/-- Claim C7: `calculate_psi(E, E) = 0` for every sample `E` (each PSI term
has a zero `aᵢ − eᵢ` factor, and the empty/degenerate guards return 0), and
`calculate_psi(E, A) ≥ 0` for all samples (each term `(aᵢ − eᵢ)·ln(aᵢ/eᵢ)`
is non-negative because both proportions are strictly positive after the
`1e-10` floor). -/
theorem c7_psi_self_zero_and_nonneg (E A : List ℚ) (bins : ℕ) :
    calculate_psi E E bins = 0 ∧ 0 ≤ calculate_psi E A bins := by
  constructor
  · simp only [calculate_psi]
    split
    · rfl
    · split
      · rfl
      · exact psiSum_self _
  · simp only [calculate_psi]
    split
    · exact le_refl 0
    · split
      · exact le_refl 0
      · refine psiSum_nonneg _ (fun p hp => ?_)
        obtain ⟨h1, h2⟩ := List.of_mem_zip hp
        exact ⟨floorProbs_pos _ _ _ h1, floorProbs_pos _ _ _ h2⟩

/-- The result dict of `detect_price_drift` (drift.py lines 159-197);
`reason` is present only in the insufficient-data branch.  The summary
statistics (`baseline_mean` and friends) are elided: no claim inspects
them. -/
structure DriftResult where
  drift_detected : Prop
  psi : ℝ
  ks_statistic : ℚ
  ks_pvalue : ℚ
  reason : Option String

/-- `DriftDetector.calculate_ks_statistic` (drift.py lines 89-104).
`scipy.stats.ks_2samp` is not code of this repository; it enters as the
function parameter `ks2samp` returning (statistic, p-value). -/
def calculate_ks_statistic (ks2samp : List ℚ → List ℚ → ℚ × ℚ)
    (expected actual : List ℚ) : ℚ × ℚ :=
  if expected.length = 0 ∨ actual.length = 0 then (0, 1) else ks2samp expected actual

/-- `DriftDetector.detect_price_drift` (drift.py lines 159-197): the
insufficient-data early return for fewer than 10 baseline or 5 recent
prices, otherwise drift iff `psi > psi_threshold` or
`ks_pvalue < ks_threshold`. -/
noncomputable def detect_price_drift (ks2samp : List ℚ → List ℚ → ℚ × ℚ)
    (st : DriftState) : DriftResult :=
  if st.baseline_price.length < 10 ∨ st.recent_price.length < 5 then
    { drift_detected := False, psi := 0, ks_statistic := 0, ks_pvalue := 1,
      reason := some "Insufficient data" }
  else
    let psi := calculate_psi st.baseline_price st.recent_price 10
    let ks := calculate_ks_statistic ks2samp st.baseline_price st.recent_price
    { drift_detected := (st.psi_threshold : ℝ) < psi ∨ ks.2 < st.ks_threshold,
      psi := psi, ks_statistic := ks.1, ks_pvalue := ks.2, reason := none }

/-- Claim C6: for every state and every KS oracle, `detect_price_drift`
reports drift exactly when the baseline has at least 10 prices, the recent
window at least 5, and either the PSI exceeds `psi_threshold` or the KS
p-value is below `ks_threshold`; and the "Insufficient data" reason is
returned exactly when one of the sample-size guards fails. -/
theorem c6_price_drift_characterization (ks2samp : List ℚ → List ℚ → ℚ × ℚ)
    (st : DriftState) :
    ((detect_price_drift ks2samp st).drift_detected ↔
      (10 ≤ st.baseline_price.length ∧ 5 ≤ st.recent_price.length ∧
        ((st.psi_threshold : ℝ) < calculate_psi st.baseline_price st.recent_price 10 ∨
          (calculate_ks_statistic ks2samp st.baseline_price st.recent_price).2 <
            st.ks_threshold))) ∧
    (detect_price_drift ks2samp st).reason =
      (if st.baseline_price.length < 10 ∨ st.recent_price.length < 5 then
        some "Insufficient data" else none) := by
  by_cases hguard : st.baseline_price.length < 10 ∨ st.recent_price.length < 5
  · constructor
    · simp only [detect_price_drift, if_pos hguard]
      constructor
      · intro h; exact absurd h not_false
      · rintro ⟨h1, h2, _⟩
        rcases hguard with h | h
        · omega
        · omega
    · simp only [detect_price_drift, if_pos hguard, if_pos hguard]
  · constructor
    · simp only [detect_price_drift, if_neg hguard]
      push_neg at hguard
      constructor
      · intro h
        exact ⟨by omega, by omega, h⟩
      · rintro ⟨_, _, h⟩
        exact h
    · simp only [detect_price_drift, if_neg hguard, if_neg hguard]

/-- Claim C10: `add_to_recent` never touches the per-SKU conversion history
(only `add_to_baseline` appends to it, and it returns unchanged once
`baseline_ready` holds), so after the baseline freezes the per-record
drift update of routes.py line 86 leaves `sku_conversion_history` — the
only data `detect_conversion_drift` reads — unchanged. -/
theorem c10_recent_frame (st : DriftState) (r : TelemetryInput) :
    (add_to_recent st r).sku_conversion_history = st.sku_conversion_history ∧
    (st.baseline_ready = true →
      add_to_baseline st r = st ∧
      (driftIngestStep st r).sku_conversion_history = st.sku_conversion_history) := by
  refine ⟨rfl, fun h => ⟨?_, ?_⟩⟩
  · simp [add_to_baseline, h]
  · simp [driftIngestStep, h, add_to_recent]

/-- A drift state with a frozen baseline, for the C10 witness. -/
def readyDriftState : DriftState :=
  ⟨1/5, 1/20, 1000, [1], [1], true, [], [], fun _ => []⟩

/-- A well-formed record used by the C10 witness. -/
def driftWitnessRecord : TelemetryInput :=
  ⟨0, "SKU-001", 10, 5, 10, 2, 1, none⟩

/-- Witness for `c10_recent_frame` on a concrete frozen-baseline state. -/
theorem c10_recent_frame_witness :
    readyDriftState.baseline_ready = true ∧
    (driftIngestStep readyDriftState driftWitnessRecord).sku_conversion_history =
      readyDriftState.sku_conversion_history ∧
    add_to_baseline readyDriftState driftWitnessRecord = readyDriftState :=
  ⟨rfl, ((c10_recent_frame readyDriftState driftWitnessRecord).2 rfl).2,
    ((c10_recent_frame readyDriftState driftWitnessRecord).2 rfl).1⟩

/-! ## Alert manager (`src/api/alerts.py`) -/

/-- An alert id `ALERT-{YYYYMMDD}-{counter:06d}` (alerts.py line 79),
modelled structurally: `date` is the 8-digit `strftime` date of the
creation instant and `counter` the embedded counter.  The rendered string
is injective in this pair (the date is fixed-width and the zero-padded
decimal counter is parseable back), so distinctness of the pairs is
distinctness of the ids. -/
structure AlertId where
  date : ℕ
  counter : ℕ
deriving DecidableEq, Repr

/-- An `Alert` (alerts.py lines 17-42).  `last_good_state`, `suggested_fix`
and `metadata` are free-form payloads no claim inspects; they are elided. -/
structure Alert where
  alert_id : AlertId
  alert_type : String
  severity : Severity
  message : String
  sku : Option String
  timestamp : ℚ
  acknowledged : Bool
  resolved : Bool
deriving DecidableEq, Repr

/-- `AlertManager` state (alerts.py lines 65-74): the id-keyed alert dict in
insertion order, the TTL in seconds, and the process-wide counter. -/
structure AlertManagerState where
  alerts : List Alert
  alert_ttl : ℚ
  alert_counter : ℕ

/-- `AlertManager._generate_alert_id` (alerts.py lines 76-79): increment
the counter and embed it with the current date. -/
def generate_alert_id (st : AlertManagerState) (today : ℕ) : AlertId × AlertManagerState :=
  let c := st.alert_counter + 1
  (⟨today, c⟩, { st with alert_counter := c })

/-- Arguments of one `create_alert` call, with the creation date passed
explicitly (it is read from the clock inside `_generate_alert_id`). -/
structure CreateCall where
  today : ℕ
  alert_type : String
  severity : Severity
  message : String
  sku : Option String
  timestamp : ℚ

/-- `AlertManager.create_alert` (alerts.py lines 81-119): generate an id,
build the alert unacknowledged and unresolved, store it. -/
def create_alert (st : AlertManagerState) (c : CreateCall) : Alert × AlertManagerState :=
  let idst := generate_alert_id st c.today
  let a : Alert := ⟨idst.1, c.alert_type, c.severity, c.message, c.sku, c.timestamp, false, false⟩
  (a, { idst.2 with alerts := idst.2.alerts ++ [a] })

/-- The ids produced by a sequence of `create_alert` calls against one
manager instance. -/
def createIds : AlertManagerState → List CreateCall → List AlertId
  | _, [] => []
  | st, c :: cs =>
    let acs := create_alert st c
    acs.1.alert_id :: createIds acs.2 cs

theorem createIds_counters (calls : List CreateCall) : ∀ st : AlertManagerState,
    (createIds st calls).map AlertId.counter = List.range' (st.alert_counter + 1) calls.length := by
  induction calls with
  | nil => intro st; rfl
  | cons c cs ih =>
    intro st
    simp only [createIds, create_alert, generate_alert_id, List.map_cons, ih, List.length_cons]
    rw [List.range'_succ]

/-- Claim C8: within one `AlertManager` instance, any sequence of
`create_alert` calls — with arbitrary creation dates per call — yields ids
whose embedded counters are strictly increasing in creation order (they
are exactly `counter+1, counter+2, …`, independent of the dates, so the
counter never resets when the date part changes), hence pairwise distinct
ids. -/
theorem c8_alert_ids_unique_monotone (st : AlertManagerState) (calls : List CreateCall) :
    List.Pairwise (fun i j => i.counter < j.counter) (createIds st calls) ∧
    List.Pairwise (fun i j => i ≠ j) (createIds st calls) ∧
    (createIds st calls).map AlertId.counter =
      List.range' (st.alert_counter + 1) calls.length := by
  have hmap := createIds_counters calls st
  have hlt : List.Pairwise (fun i j => i.counter < j.counter) (createIds st calls) := by
    have h := List.pairwise_lt_range' (st.alert_counter + 1) calls.length
    rw [← hmap] at h
    exact (List.pairwise_map).mp h
  refine ⟨hlt, hlt.imp ?_, hmap⟩
  intro i j h he
  rw [he] at h
  exact lt_irrefl _ h

/-- `AlertManager._cleanup_expired` (alerts.py lines 405-414): drop every
alert with `now − timestamp > alert_ttl`, i.e. keep those with
`now − timestamp ≤ alert_ttl`. -/
def cleanup_expired (st : AlertManagerState) (now : ℚ) : AlertManagerState :=
  { st with alerts := st.alerts.filter (fun a => decide (now - a.timestamp ≤ st.alert_ttl)) }

/-- The filter loop of `get_alerts` (alerts.py lines 374-384).  `none`
models a filter argument that is absent (Python also treats an empty
filter string as absent; such a call is the `none` case here). -/
def alertMatches (severity : Option Severity) (alert_type : Option String)
    (sku : Option String) (resolved : Option Bool) (a : Alert) : Bool :=
  (match severity with | none => true | some s => decide (a.severity = s)) &&
  (match alert_type with | none => true | some t => decide (a.alert_type = t)) &&
  (match sku with | none => true | some k => decide (a.sku = some k)) &&
  (match resolved with | none => true | some r => decide (a.resolved = r))

/-- `AlertManager.get_alerts` (alerts.py lines 349-389): purge expired
alerts, filter, sort newest-first by timestamp, truncate to `limit`.  The
mutated manager state is the second component. -/
def get_alerts (st : AlertManagerState) (now : ℚ) (severity : Option Severity)
    (alert_type : Option String) (sku : Option String) (resolved : Option Bool)
    (limit : ℕ) : List Alert × AlertManagerState :=
  let st1 := cleanup_expired st now
  let matched := st1.alerts.filter (alertMatches severity alert_type sku resolved)
  let sorted := matched.mergeSort (fun a b => decide (b.timestamp ≤ a.timestamp))
  (sorted.take limit, st1)

/-- The stats dict of `get_alert_stats` (alerts.py lines 416-436). -/
structure AlertStats where
  total : ℕ
  by_severity : Severity → ℕ
  by_type : String → ℕ
  unresolved : ℕ
  unacknowledged : ℕ

/-- `AlertManager.get_alert_stats` (alerts.py lines 416-436): purge expired
alerts first, then count. -/
def get_alert_stats (st : AlertManagerState) (now : ℚ) : AlertStats × AlertManagerState :=
  let st1 := cleanup_expired st now
  ({ total := st1.alerts.length,
     by_severity := fun s => (st1.alerts.filter (fun a => decide (a.severity = s))).length,
     by_type := fun t => (st1.alerts.filter (fun a => decide (a.alert_type = t))).length,
     unresolved := (st1.alerts.filter (fun a => ! a.resolved)).length,
     unacknowledged := (st1.alerts.filter (fun a => ! a.acknowledged)).length }, st1)

/-- Claim C9: both `get_alerts` and `get_alert_stats` purge expired alerts
before doing anything else, so under every filter combination the listing
contains no alert older than the TTL, and the stats total counts exactly
the unexpired alerts. -/
theorem c9_ttl_eviction (st : AlertManagerState) (now : ℚ) (severity : Option Severity)
    (alert_type : Option String) (sku : Option String) (resolved : Option Bool) (limit : ℕ) :
    ((get_alerts st now severity alert_type sku resolved limit).1.filter
        (fun a => decide (st.alert_ttl < now - a.timestamp))) = [] ∧
    (get_alert_stats st now).1.total =
      (st.alerts.filter (fun a => decide (now - a.timestamp ≤ st.alert_ttl))).length := by
  constructor
  · rw [List.filter_eq_nil_iff]
    intro a ha
    have h1 : a ∈ (cleanup_expired st now).alerts := by
      have h2 := List.mem_of_mem_take ha
      have h3 := List.mem_mergeSort.mp h2
      exact List.mem_of_mem_filter h3
    have h4 : decide (now - a.timestamp ≤ st.alert_ttl) = true := by
      have := List.of_mem_filter h1
      simpa [cleanup_expired] using this
    simp only [decide_eq_true_eq] at h4 ⊢
    exact not_lt.mpr h4
  · rfl

/-! ## Anomaly-detector history (`src/models/anomaly.py`) and the ingest
pipeline (`src/api/routes.py`) -/

/-- The mutable history of `AnomalyDetector` (anomaly.py lines 27-46) plus
its `is_trained` flag.  The fitted `IsolationForest` is immutable after
training and never influences the state evolution, so it is not modelled.
The referrer table is keyed by `record.get("referrer")`, which can be
`None`. -/
structure AnomalyState where
  is_trained : Bool
  price_history : String → List ℚ
  stock_history : String → List ℚ
  referrer_counts : Option String → ℕ
  conversion_history : String → List ℚ
  last_price : String → Option ℚ
  last_stock : String → Option ℚ

/-- Append and trim to the last 100 entries (anomaly.py lines 152-169). -/
def appTrim100 (l : List ℚ) (x : ℚ) : List ℚ :=
  let l2 := l ++ [x]
  if 100 < l2.length then l2.drop (l2.length - 100) else l2

/-- `AnomalyDetector.update_history` (anomaly.py lines 137-173): append
price, stock and (when `views > 0`) the conversion rate to the SKU's
deques, bump the referrer count, and remember the last price and stock. -/
def update_history (st : AnomalyState) (r : TelemetryInput) : AnomalyState :=
  { st with
    price_history := fun s =>
      if s = r.sku then appTrim100 (st.price_history s) r.price else st.price_history s,
    stock_history := fun s =>
      if s = r.sku then appTrim100 (st.stock_history s) (r.stock : ℚ) else st.stock_history s,
    referrer_counts := fun k =>
      if k = r.referrer then st.referrer_counts k + 1 else st.referrer_counts k,
    conversion_history := fun s =>
      if s = r.sku ∧ 0 < r.views then
        appTrim100 (st.conversion_history s) ((r.purchases : ℚ) / (r.views : ℚ))
      else st.conversion_history s,
    last_price := fun s => if s = r.sku then some r.price else st.last_price s,
    last_stock := fun s => if s = r.sku then some (r.stock : ℚ) else st.last_stock s }

/-- The state evolution of `AnomalyDetector.predict` (anomaly.py lines
204-251): the untrained early return leaves the state alone; otherwise
features are extracted (pure) and `update_history` runs, independent of
the model's verdict. -/
def anomalyPredictStep (st : AnomalyState) (r : TelemetryInput) : AnomalyState :=
  if st.is_trained then update_history st r else st

/-- The four detector states touched by `ingest_telemetry` (the module
globals of routes.py lines 20-25). -/
structure PipelineState where
  validator : ValidatorState
  drift : DriftState
  kalman : KalmanState
  anomaly : AnomalyState

/-- The detector-state evolution of one `ingest_telemetry` call (routes.py
lines 51-161): validation (line 63) is followed *unconditionally* — valid
or not — by the drift-window update (line 86), the anomaly prediction with
its history update (lines 113-114), and, when `views > 0` and the SKU is
non-empty (truthy), the Kalman `detect_deviation` with its default
`threshold_sigma = 2` (line 131).  Alert creation and metrics (modelled
separately on `AlertManagerState`) read the detector outputs but never
write detector state. -/
noncomputable def ingestDetectors (st : PipelineState) (now : ℚ) (r : TelemetryInput) :
    PipelineState :=
  let v := (validate_record st.validator now r).2
  let d := driftIngestStep st.drift r
  let a := anomalyPredictStep st.anomaly r
  let k :=
    if 0 < r.views ∧ r.sku ≠ "" then (detectDeviation st.kalman r.sku r.views r.purchases 2).2
    else st.kalman
  ⟨v, d, k, a⟩

/-- The fresh globals of routes.py lines 20-25 (all constructors with their
defaults; the anomaly detector before `initialize_anomaly_detector`). -/
def validatorInit : ValidatorState := ValidatorState.init 10 100000

/-- Fresh `DriftDetector()` state. -/
def driftInit : DriftState := ⟨1/5, 1/20, 1000, [], [], false, [], [], fun _ => []⟩

/-- Fresh `AnomalyDetector` history with the given trained flag. -/
def anomalyInit (trained : Bool) : AnomalyState :=
  ⟨trained, fun _ => [], fun _ => [], fun _ => 0, fun _ => [], fun _ => none, fun _ => none⟩

/-- The pipeline state at process start. -/
noncomputable def pipelineInit : PipelineState :=
  ⟨validatorInit, driftInit, kalmanInit, anomalyInit false⟩

/-- A request whose funnel is inconsistent (`add_to_cart = 60 > views = 50`):
it passes `TelemetryRecordRequest` (no funnel checks there) and fails the
Pydantic `TelemetryRecord` validation inside `validate_record`, producing a
`schema_error` violation. -/
def schemaErrorRecord : TelemetryInput := ⟨0, "SKU-001", 10, 5, 50, 60, 5, none⟩

/-- Claim C1 (counterexample): a record whose validation yields exactly one
`schema_error` violation is *not* dropped before the detector updates —
ingesting it grows the drift detector's baseline price window from `[]` to
`[10]` (routes.py line 86 runs on every record, valid or not). -/
theorem c1_schema_error_not_dropped :
    (validate_record pipelineInit.validator 0 schemaErrorRecord).1 =
      ⟨false, [⟨some "SKU-001", .schema_error, .high⟩]⟩ ∧
    (ingestDetectors pipelineInit 0 schemaErrorRecord).drift.baseline_price = [10] ∧
    pipelineInit.drift.baseline_price = [] := by
  refine ⟨?_, ?_, rfl⟩
  · norm_num [validate_record, pydanticValidate, normalize_price, schemaErrorRecord,
      pipelineInit, validatorInit, ValidatorState.init]
  · norm_num [ingestDetectors, driftIngestStep, add_to_baseline, pipelineInit, driftInit,
      schemaErrorRecord, show ("SKU-001" : String) ≠ "" from by decide]

/-- Claim C1 (amended): a record failing the Pydantic shape/type/funnel
validation is dropped only from the validator's own price-history update
(its `ValidationResult` is a single `schema_error` violation and the
validator state is returned untouched); the drift windows, the anomaly
history (when trained), and the Kalman state (when `views > 0` and the SKU
is non-empty) are still updated with the record, exactly as for a valid
one. -/
theorem c1_detectors_updated_on_schema_error (st : PipelineState) (now : ℚ)
    (r : TelemetryInput) (h : pydanticValidate r = none) :
    (validate_record st.validator now r).1.is_valid = false ∧
    (validate_record st.validator now r).1.violations.map Violation.violation_type =
      [ViolationType.schema_error] ∧
    (ingestDetectors st now r).validator = st.validator ∧
    (ingestDetectors st now r).drift = driftIngestStep st.drift r ∧
    (ingestDetectors st now r).anomaly = anomalyPredictStep st.anomaly r ∧
    (ingestDetectors st now r).kalman =
      (if 0 < r.views ∧ r.sku ≠ "" then
        (detectDeviation st.kalman r.sku r.views r.purchases 2).2
      else st.kalman) := by
  refine ⟨?_, ?_, ?_, rfl, rfl, rfl⟩
  · simp [validate_record, h]
  · simp [validate_record, h]
  · simp [ingestDetectors, validate_record, h]

/-- Witness for `c1_detectors_updated_on_schema_error` at the fresh
pipeline and the inconsistent-funnel record. -/
theorem c1_detectors_updated_witness :
    pydanticValidate schemaErrorRecord = none ∧
    (ingestDetectors pipelineInit 0 schemaErrorRecord).drift =
      driftIngestStep pipelineInit.drift schemaErrorRecord :=
  ⟨by simp [pydanticValidate, schemaErrorRecord],
    (c1_detectors_updated_on_schema_error pipelineInit 0 schemaErrorRecord
      (by simp [pydanticValidate, schemaErrorRecord])).2.2.2.1⟩

end PriceCanary
